import Mathlib

/-!
Shallow embedding of the data-preparation and forecast-configuration
pipeline of `forecast_app.py` (financial-forecast-app): the column
classifier (`detect_date_column`), the series builder
(`validate_columns`, `prepare_time_series`), the forecast engine
(`generate_forecast`), and metrics/export (`calculate_metrics`,
`create_download_csv`).  pandas and statsmodels are external to the
repository; where a claim depends on them their documented behaviour is
embedded explicitly (date parsing outcomes as abstract cell values, the
exponential-smoothing fit/predict calls as failure-capable oracles,
float division by zero as an undefined/non-finite marker).
-/

/-! ## Calendar dates

Embeds `pandas.Timestamp` at day granularity; time-of-day plays no role
in any claim. -/

/-- Calendar date: year, month (1-12), day (1-31). -/
structure Date where
  year : Nat
  month : Nat
  day : Nat
deriving DecidableEq, Repr

/-- Gregorian leap-year rule. -/
def isLeapYear (y : Nat) : Bool :=
  (y % 4 == 0 && y % 100 != 0) || (y % 400 == 0)

/-- Number of days in month `m` of year `y`. -/
def daysInMonth (y m : Nat) : Nat :=
  if m == 2 then (if isLeapYear y then 29 else 28)
  else if m == 4 || m == 6 || m == 9 || m == 11 then 30
  else 31

/-- First day of the month after `d` (the step of pandas frequency
`'MS'`, month start). -/
def monthStartAfter (d : Date) : Date :=
  if d.month == 12 then ⟨d.year + 1, 1, 1⟩ else ⟨d.year, d.month + 1, 1⟩

/-- pandas `DateOffset(months=1)`: advance one month, clamping the day
to the target month's length (Jan 31 + 1 month = Feb 28/29). -/
def dateOffsetMonth1 (d : Date) : Date :=
  let n := monthStartAfter d
  ⟨n.year, n.month, min d.day (daysInMonth n.year n.month)⟩

/-- Roll a date forward to the first month start on or after it; this is
how `pd.date_range(start=s, freq='MS')` chooses its first element. -/
def rollToMonthStart (d : Date) : Date :=
  if d.day == 1 then d else monthStartAfter d

/-- Consecutive month starts: `k` dates, each the month start following
the previous one. -/
def consecMonthStarts : Date → Nat → List Date
  | _, 0 => []
  | d, Nat.succ k => d :: consecMonthStarts (monthStartAfter d) k

/-- pandas `pd.date_range(start=s, periods=k, freq='MS')`. -/
def date_range_MS (s : Date) (k : Nat) : List Date :=
  consecMonthStarts (rollToMonthStart s) k

/-- Numeric key that orders well-formed dates chronologically
(month ≤ 12 < 16 and day ≤ 31 < 32, so the encoding is lexicographic). -/
def dateKey (d : Date) : Nat :=
  (d.year * 16 + d.month) * 32 + d.day

/-! ## Column classifier (`detect_date_column`, lines 751-813)

A loaded table is a list of named columns.  What pandas parsing does to
an individual cell is external to the repository, so a cell carries its
parsing outcome: `strDate d` is an object-column entry that
`pd.to_datetime` (under the code's inferred-format-or-auto strategy)
parses to the date `d`, `strBad` one that fails to parse, `num q` a
numeric entry, `dt d` a datetime-typed entry, `na` a missing entry. -/

/-- pandas column dtype, as tested by `is_datetime64_any_dtype` and
`is_numeric_dtype` (mutually exclusive; everything else is `object`). -/
inductive Dtype where
  | datetime
  | numeric
  | object
deriving DecidableEq, Repr

/-- Cell of a loaded table, carrying its external parsing outcome. -/
inductive TableCell where
  | na
  | dt (d : Date)
  | num (q : ℚ)
  | strDate (d : Date)
  | strBad
deriving DecidableEq, Repr

/-- Named column of a loaded table.  In an aligned DataFrame every
column has `len(df)` cells, so `cells.length` embeds `len(df)`. -/
structure Column where
  name : String
  dtype : Dtype
  cells : List TableCell
deriving DecidableEq, Repr

/-- ASCII lower-casing of one character (`str.lower()` on the ASCII
column names the detector compares against its keywords). -/
def lowerChar (c : Char) : Char :=
  if 65 ≤ c.toNat ∧ c.toNat ≤ 90 then Char.ofNat (c.toNat + 32) else c

/-- Does `needle` occur at the head of `hay`? -/
def charsStartWith : List Char → List Char → Bool
  | _, [] => true
  | [], _ :: _ => false
  | h :: t, n :: m => h == n && charsStartWith t m

/-- Does `needle` occur anywhere inside `hay` (Python `in` on strings)? -/
def charsContain : List Char → List Char → Bool
  | [], needle => needle.isEmpty
  | h :: t, needle => charsStartWith (h :: t) needle || charsContain t needle

/-- Keywords that suggest a date column (line 762). -/
def date_keywords : List String :=
  ["date", "month", "period", "time", "quarter", "year", "day", "week"]

/-- Line 769: `any(keyword in col_lower for keyword in date_keywords)`. -/
def isDateKeywordName (name : String) : Bool :=
  date_keywords.any (fun k => charsContain (name.data.map lowerChar) k.data)

/-- Numeric value of a cell, if any (`dropna` view of a numeric column). -/
def cellNumVal : TableCell → Option ℚ
  | TableCell.num q => some q
  | _ => none

/-- Number of entries of the column that `pd.to_datetime(...,
errors='coerce')` parses successfully (`parsed.notna().sum()`):
missing and unparseable entries give `NaT`. -/
def parsedDateCount (c : Column) : Nat :=
  c.cells.countP (fun cell => match cell with
    | TableCell.strDate _ => true
    | _ => false)

/-- Per-column acceptance test of `detect_date_column` (lines 771-809):
datetime-dtype columns are accepted outright; numeric-dtype columns hit
the year-range test whose two arms both `continue` (lines 782-787), so
they are never accepted; object columns are parsed (inferred format or
auto fallback, abstracted into the cells) and accepted when
`parsed.notna().sum() / len(df) > 0.8` (line 800-803). -/
def columnQualifies (c : Column) : Bool :=
  match c.dtype with
  | Dtype.datetime => true
  | Dtype.numeric =>
    let sample := (c.cells.filterMap cellNumVal).take 10
    if sample.all (fun q => decide ((1900 : ℚ) ≤ q) && decide (q ≤ (2100 : ℚ)))
    then false else false
  | Dtype.object =>
    decide (((parsedDateCount c : ℚ) / (c.cells.length : ℚ)) > 0.8)

/-- Loop body of `detect_date_column` (lines 767-809): a qualifying
column is appended to `keyword_matches` or `date_columns` according to
its name; a non-qualifying column is skipped (`continue`). -/
def classifyStep (acc : List String × List String) (col : Column) :
    List String × List String :=
  if columnQualifies col then
    if isDateKeywordName col.name then (acc.1 ++ [col.name], acc.2)
    else (acc.1, acc.2 ++ [col.name])
  else acc

/-- Shallow embedding of `detect_date_column` (lines 751-813): one pass
over the columns accumulating `keyword_matches` and `date_columns` in
column order, then `(keyword_matches + date_columns)[0]` if any. -/
def detect_date_column (df : List Column) : Option String :=
  let acc := df.foldl classifyStep ([], [])
  (acc.1 ++ acc.2).head?

/-! ## Series builder (`validate_columns` lines 883-917,
`prepare_time_series` lines 920-958)

Both functions only look at the two selected columns, so the embedding
takes the selected date and value columns directly, as a list of
row-aligned cell pairs; each cell again carries its external pandas
coercion outcome.  `DateCell.invalid` is a present entry on which
`pd.to_datetime` raises; `ValCell.invalid` a present entry that is not
numeric-coercible. -/

/-- Date-column cell of the selected pair, with its parsing outcome. -/
inductive DateCell where
  | na
  | valid (d : Date)
  | invalid
deriving DecidableEq, Repr

/-- Value-column cell of the selected pair, with its coercion outcome. -/
inductive ValCell where
  | na
  | num (q : ℚ)
  | invalid
deriving DecidableEq, Repr

/-- Shallow embedding of `validate_columns` (lines 883-917) on the two
selected columns.  `pd.to_datetime(df[date_col])` (line 901) raises
exactly when a present entry is unparseable (missing entries become
`NaT` silently); `pd.to_numeric(..., errors='raise')` (line 909) is
attempted only when the value column's dtype is not already numeric and
raises exactly when a present entry is not coercible; the final check
(line 914) compares the raw row count, before any cleaning, with 6. -/
def validate_columns (date_col value_col : String)
    (value_dtype_numeric : Bool)
    (rows : List (DateCell × ValCell)) : Bool × Option String :=
  if rows.any (fun r => match r.1 with | DateCell.invalid => true | _ => false) then
    (false, some ("'" ++ date_col ++
      "' cannot be converted to dates. Please select a valid date column."))
  else if !value_dtype_numeric &&
      rows.any (fun r => match r.2 with | ValCell.invalid => true | _ => false) then
    (false, some ("'" ++ value_col ++
      "' is not numeric. Please select a column with numerical values."))
  else if rows.length < 6 then
    (false, some "At least 6 data points are required for forecasting.")
  else (true, none)

/-- Shallow embedding of `prepare_time_series` (lines 920-958): re-parse
the date column (raising, hence `none`, if a present entry is
unparseable — line 938/944 has no `errors='coerce'`), coerce the value
column with `errors='coerce'` (bad entries become missing), drop rows
with a missing date or value, and sort ascending by date
(`sort_values`, embedded as an insertion sort on the date key). -/
def prepare_time_series (rows : List (DateCell × ValCell)) :
    Option (List (Date × ℚ)) :=
  if rows.any (fun r => match r.1 with | DateCell.invalid => true | _ => false) then
    none
  else
    some (List.insertionSort (fun a b => dateKey a.1 ≤ dateKey b.1)
      (rows.filterMap (fun r => match r with
        | (DateCell.valid d, ValCell.num q) => some (d, q)
        | _ => none)))

instance : IsTotal (Date × ℚ) (fun a b => dateKey a.1 ≤ dateKey b.1) :=
  ⟨fun _ _ => Nat.le_total _ _⟩

instance : IsTrans (Date × ℚ) (fun a b => dateKey a.1 ≤ dateKey b.1) :=
  ⟨fun _ _ _ => Nat.le_trans⟩

/-- Series Builder step as the claims compose it: the `validate_columns`
gate followed by `prepare_time_series`; `Except.error` carries the
reported `DataError` message. -/
def series_builder (date_col value_col : String) (value_dtype_numeric : Bool)
    (rows : List (DateCell × ValCell)) : Except String (List (Date × ℚ)) :=
  match validate_columns date_col value_col value_dtype_numeric rows with
  | (true, _) =>
    match prepare_time_series rows with
    | some ts => Except.ok ts
    | none => Except.error "date column became unparseable after validation"
  | (false, some msg) => Except.error msg
  | (false, none) => Except.error ""

/-! ## Forecast engine (`generate_forecast`, lines 961-1021) -/

/-- Configuration handed to `ExponentialSmoothing` (only the keyword
arguments the code sets). -/
structure ModelConfig where
  trend : String
  seasonal : Option String
  seasonal_periods : Option Nat
  damped_trend : Bool
deriving DecidableEq, Repr

/-- Line 979-985: additive trend, additive seasonal, period 12, damped. -/
def seasonalDampedConfig : ModelConfig := ⟨"add", some "add", some 12, true⟩

/-- Line 988-993: additive trend, damped, no seasonal component. -/
def dampedTrendConfig : ModelConfig := ⟨"add", none, none, true⟩

/-- Line 996-1001: additive trend, no damping, no seasonal component. -/
def simpleTrendConfig : ModelConfig := ⟨"add", none, none, false⟩

/-- Model-configuration branch of `generate_forecast` (lines 975-1001),
chosen solely from `n_obs = len(time_series)`. -/
def selectModel (n_obs : Nat) : ModelConfig :=
  if n_obs ≥ 24 then seasonalDampedConfig
  else if n_obs ≥ 12 then dampedTrendConfig
  else simpleTrendConfig

/-- Opaque fitted-model handle returned by the external smoothing
routine (its parameters play no role in any claim). -/
structure FittedModel where
  params : List ℚ
deriving DecidableEq, Repr

/-- Shallow embedding of `generate_forecast` (lines 961-1021).  The
external statsmodels calls `ExponentialSmoothing(...).fit(optimized=True)`
and `fitted_model.forecast(n)` appear as the oracles `fit` and
`predict`; `Except.error` stands for a raised exception.  The
surrounding `try/except` turns any raised error into the triple
`(None, None, "Forecasting error: ...")` (line 1020-1021).  Inside the
`try`: `time_series.index[-1]` (line 1010) raises on an empty series,
and the re-indexing `forecast.index = forecast_index` (line 1016)
raises when the predicted length differs from the index length. -/
def generate_forecast
    (fit : ModelConfig → List (Date × ℚ) → Except String FittedModel)
    (predict : FittedModel → Nat → Except String (List ℚ))
    (time_series : List (Date × ℚ)) (forecast_periods : Nat) :
    Option (List (Date × ℚ)) × Option FittedModel × Option String :=
  match fit (selectModel time_series.length) time_series with
  | Except.error e => (none, none, some ("Forecasting error: " ++ e))
  | Except.ok fitted_model =>
    match predict fitted_model forecast_periods with
    | Except.error e => (none, none, some ("Forecasting error: " ++ e))
    | Except.ok ys =>
      match time_series.getLast? with
      | none => (none, none, some ("Forecasting error: " ++
          "index -1 is out of bounds for axis 0 with size 0"))
      | some last =>
        let forecast_index := date_range_MS (dateOffsetMonth1 last.1) forecast_periods
        if ys.length = forecast_periods then
          (some (forecast_index.zip ys), some fitted_model, none)
        else
          (none, none, some ("Forecasting error: " ++
            "Length mismatch between forecast values and forecast index"))

/-! ## Metrics and export (`calculate_metrics` lines 1132-1161,
`create_download_csv` lines 1164-1186) -/

/-- Result record of `calculate_metrics`.  `growth_rate` is an
`Option`: `none` embeds the non-finite float (`inf`/`nan`) that the
unguarded division at line 1149 produces when the last historical value
is zero. -/
structure Metrics where
  historical_avg : ℚ
  forecast_avg : ℚ
  growth_rate : Option ℚ
  projected_total : ℚ
  historical_total : ℚ
  forecast_periods : Nat
deriving DecidableEq, Repr

/-- pandas `.mean()` (arithmetic mean; the claims only use it on
non-empty series). -/
def seriesMean (xs : List ℚ) : ℚ := xs.sum / (xs.length : ℚ)

/-- Shallow embedding of `calculate_metrics` (lines 1132-1161).
`.iloc[-1]` raises on an empty series, hence the `Option` result; the
division at line 1149 is unguarded, so a zero last historical value
yields a non-finite growth rate, embedded as `none`. -/
def calculate_metrics (historical_data forecast_data : List ℚ) :
    Option Metrics :=
  match historical_data.getLast?, forecast_data.getLast? with
  | some last_historical, some last_forecast =>
    some
      { historical_avg := seriesMean historical_data
        forecast_avg := seriesMean forecast_data
        growth_rate :=
          if last_historical = 0 then none
          else some ((last_forecast - last_historical) / last_historical * 100)
        projected_total := forecast_data.sum
        historical_total := historical_data.sum
        forecast_periods := forecast_data.length }
  | _, _ => none

/-- Two-digit zero-padded field of `strftime` (`%d`, `%m`). -/
def pad2 (n : Nat) : String :=
  if n < 10 then "0" ++ toString n else toString n

/-- Four-digit zero-padded year field of `strftime` (`%Y`). -/
def pad4 (n : Nat) : String :=
  if n < 10 then "000" ++ toString n
  else if n < 100 then "00" ++ toString n
  else if n < 1000 then "0" ++ toString n
  else toString n

/-- `strftime('%d/%m/%Y')` (line 1184). -/
def formatDMY (d : Date) : String :=
  pad2 d.day ++ "/" ++ pad2 d.month ++ "/" ++ pad4 d.year

/-- Shallow embedding of `create_download_csv` (lines 1164-1186): the
combined DataFrame is built column-major — dates (formatted
`DD/MM/YYYY`), values, and a `Type` column of `'Historical'`/`'Forecast'`
tags — and serialized row-major with the header
`Date, <value column name>, Type`.  The embedding returns the header
and the rows (value cells kept as numbers; their float rendering is
external formatting). -/
def create_download_csv (historical_data forecast_data : List (Date × ℚ))
    (value_col_name : String) :
    List String × List (String × ℚ × String) :=
  let dates := historical_data.map Prod.fst ++ forecast_data.map Prod.fst
  let values := historical_data.map Prod.snd ++ forecast_data.map Prod.snd
  let types := List.replicate historical_data.length "Historical" ++
               List.replicate forecast_data.length "Forecast"
  (["Date", value_col_name, "Type"], (dates.map formatDMY).zip (values.zip types))

/-! ## Concrete inputs used by witnesses and counterexamples -/

/-- Fit oracle that always succeeds (a well-behaved external solver). -/
def okFit : ModelConfig → List (Date × ℚ) → Except String FittedModel :=
  fun _ _ => Except.ok ⟨[]⟩

/-- Predict oracle that returns `n` zero predictions (a well-behaved
external solver always returns exactly the requested number). -/
def okPredict : FittedModel → Nat → Except String (List ℚ) :=
  fun _ n => Except.ok (List.replicate n 0)

/-- Six-row selected-column table whose value column (numeric dtype) has
one missing entry: the raw length is 6 but the cleaned length is 5. -/
def c3rows : List (DateCell × ValCell) :=
  [(DateCell.valid ⟨2024, 1, 1⟩, ValCell.num 1),
   (DateCell.valid ⟨2024, 2, 1⟩, ValCell.num 2),
   (DateCell.valid ⟨2024, 3, 1⟩, ValCell.num 3),
   (DateCell.valid ⟨2024, 4, 1⟩, ValCell.num 4),
   (DateCell.valid ⟨2024, 5, 1⟩, ValCell.num 5),
   (DateCell.valid ⟨2024, 6, 1⟩, ValCell.na)]

/-- The cleaned series `c3rows` yields: only 5 points. -/
def c3clean : List (Date × ℚ) :=
  [(⟨2024, 1, 1⟩, 1), (⟨2024, 2, 1⟩, 2), (⟨2024, 3, 1⟩, 3),
   (⟨2024, 4, 1⟩, 4), (⟨2024, 5, 1⟩, 5)]

/-- Selected-column table with a duplicated timestamp; both rows are
clean and survive the builder. -/
def c4rows : List (DateCell × ValCell) :=
  [(DateCell.valid ⟨2024, 5, 1⟩, ValCell.num 2),
   (DateCell.valid ⟨2024, 5, 1⟩, ValCell.num 3)]

/-- Object column with 5 entries of which exactly 4 parse as dates:
the parse ratio is exactly 80%. -/
def c6column : Column :=
  ⟨"observed", Dtype.object,
   [TableCell.strDate ⟨2024, 1, 1⟩, TableCell.strDate ⟨2024, 2, 1⟩,
    TableCell.strDate ⟨2024, 3, 1⟩, TableCell.strDate ⟨2024, 4, 1⟩,
    TableCell.strBad]⟩

/-- Table for the C7 witness: a numeric column first, then a
datetime-typed column whose name contains the keyword `month`. -/
def c7table : List Column :=
  [⟨"ids", Dtype.numeric, []⟩,
   ⟨"Month", Dtype.datetime, [TableCell.dt ⟨2024, 1, 1⟩]⟩]

/-- Numeric column whose sampled values all lie inside [1900, 2100]
(plausible calendar years). -/
def c10yearsColumn : Column :=
  ⟨"Year", Dtype.numeric, [TableCell.num 2005, TableCell.num 1999]⟩

/-- One-column table for the C10 witness. -/
def c10table : List Column :=
  [⟨"Month", Dtype.datetime, [TableCell.dt ⟨2024, 1, 1⟩]⟩]

/-- History series for the C2/C9 witnesses: last date is a month start. -/
def c2series : List (Date × ℚ) :=
  [(⟨2023, 12, 1⟩, 50), (⟨2024, 1, 1⟩, 100)]

/-! ## Helper lemmas -/

theorem daysInMonth_ge (y m : Nat) : 28 ≤ daysInMonth y m := by
  unfold daysInMonth
  split
  · split <;> omega
  · split <;> omega

theorem monthStartAfter_day (d : Date) : (monthStartAfter d).day = 1 := by
  unfold monthStartAfter
  split <;> rfl

theorem rollToMonthStart_day (d : Date) : (rollToMonthStart d).day = 1 := by
  unfold rollToMonthStart
  split
  · next h => exact beq_iff_eq.mp h
  · exact monthStartAfter_day d

theorem monthStartAfter_ext (a b : Date) (hy : a.year = b.year)
    (hm : a.month = b.month) : monthStartAfter a = monthStartAfter b := by
  unfold monthStartAfter
  rw [hy, hm]

theorem roll_dateOffsetMonth1 (d : Date) :
    rollToMonthStart (dateOffsetMonth1 d) =
      if d.day = 1 then monthStartAfter d
      else monthStartAfter (monthStartAfter d) := by
  have hge := daysInMonth_ge (monthStartAfter d).year (monthStartAfter d).month
  by_cases hd : d.day = 1
  · have hmin : min d.day (daysInMonth (monthStartAfter d).year (monthStartAfter d).month) = 1 := by
      omega
    rw [if_pos hd]
    unfold rollToMonthStart dateOffsetMonth1
    simp only [hmin]
    rw [if_pos (by rfl)]
    have : monthStartAfter d =
        ⟨(monthStartAfter d).year, (monthStartAfter d).month, (monthStartAfter d).day⟩ := rfl
    rw [this, monthStartAfter_day]
  · have hmin : min d.day (daysInMonth (monthStartAfter d).year (monthStartAfter d).month) ≠ 1 := by
      omega
    rw [if_neg hd]
    unfold rollToMonthStart dateOffsetMonth1
    simp only
    rw [if_neg (by simpa using hmin)]
    exact monthStartAfter_ext _ _ rfl rfl

theorem consecMonthStarts_length (d : Date) (k : Nat) :
    (consecMonthStarts d k).length = k := by
  induction k generalizing d with
  | zero => rfl
  | succ n ih => simp [consecMonthStarts, ih]

theorem consecMonthStarts_day1 (d : Date) (k : Nat) (hd : d.day = 1) :
    ∀ x ∈ consecMonthStarts d k, x.day = 1 := by
  induction k generalizing d with
  | zero => intro x hx; simp [consecMonthStarts] at hx
  | succ n ih =>
    intro x hx
    simp only [consecMonthStarts, List.mem_cons] at hx
    rcases hx with rfl | hx
    · exact hd
    · exact ih (monthStartAfter d) (monthStartAfter_day d) x hx

theorem consecMonthStarts_head (d : Date) (k : Nat) (hk : 0 < k) :
    (consecMonthStarts d k).head? = some d := by
  cases k with
  | zero => omega
  | succ n => rfl

theorem consecMonthStarts_chain (d : Date) (k : Nat) :
    List.Chain' (fun a b => b = monthStartAfter a) (consecMonthStarts d k) := by
  induction k generalizing d with
  | zero => simp [consecMonthStarts]
  | succ n ih =>
    simp only [consecMonthStarts]
    rw [List.chain'_cons']
    refine ⟨?_, ih (monthStartAfter d)⟩
    intro x hx
    cases n with
    | zero => simp [consecMonthStarts] at hx
    | succ m =>
      rw [consecMonthStarts_head (monthStartAfter d) (m + 1) (Nat.succ_pos m)] at hx
      simp only [Option.mem_def, Option.some.injEq] at hx
      exact hx.symm

/-! ## Claims -/

/-- Claim C1: for every clean numeric time series of length `n` passed to
`generate_forecast`, the model configuration is selected solely from
`n`: additive trend plus additive seasonal component with period 12 and
damped trend iff `n ≥ 24`; additive damped trend without seasonality iff
`12 ≤ n < 24`; additive trend without damping or seasonality iff
`n < 12`. -/
theorem C1_model_selection (n : Nat) :
    (selectModel n = seasonalDampedConfig ↔ 24 ≤ n) ∧
    (selectModel n = dampedTrendConfig ↔ 12 ≤ n ∧ n < 24) ∧
    (selectModel n = simpleTrendConfig ↔ n < 12) := by
  unfold selectModel seasonalDampedConfig dampedTrendConfig simpleTrendConfig
  refine ⟨?_, ?_, ?_⟩ <;> split_ifs with h1 h2 <;>
    simp_all [ModelConfig.mk.injEq] <;> omega

/-- Claim C9: `generate_forecast` never propagates an exception: for
every behaviour of the external fit/predict routines and every input,
the result is either an error triple `(none, none, some message)` whose
message is the descriptive `"Forecasting error: ..."` string, or a
success triple `(some forecast, some model, none)`. -/
theorem C9_errors_returned
    (fit : ModelConfig → List (Date × ℚ) → Except String FittedModel)
    (predict : FittedModel → Nat → Except String (List ℚ))
    (ts : List (Date × ℚ)) (h : Nat) :
    (∃ e, generate_forecast fit predict ts h =
        (none, none, some ("Forecasting error: " ++ e))) ∨
    (∃ f m, generate_forecast fit predict ts h = (some f, some m, none)) := by
  rcases hfit : fit (selectModel ts.length) ts with e | fm
  · exact Or.inl ⟨e, by simp [generate_forecast, hfit]⟩
  · rcases hpred : predict fm h with e | ys
    · exact Or.inl ⟨e, by simp [generate_forecast, hfit, hpred]⟩
    · rcases hl : ts.getLast? with _ | last
      · exact Or.inl ⟨"index -1 is out of bounds for axis 0 with size 0",
          by simp [generate_forecast, hfit, hpred, hl]⟩
      · by_cases hlen : ys.length = h
        · exact Or.inr ⟨(date_range_MS (dateOffsetMonth1 last.1) h).zip ys, fm,
            by simp [generate_forecast, hfit, hpred, hl, hlen]⟩
        · exact Or.inl ⟨"Length mismatch between forecast values and forecast index",
            by simp [generate_forecast, hfit, hpred, hl, hlen]⟩

/-- Claim C2 (amended): for every non-empty time series and horizon
`h` in 1..12, a successful `generate_forecast` call returns exactly `h`
future points whose timestamps are `h` consecutive month-start dates;
the first of them is the first day of the month following the last
historical timestamp when that timestamp falls on the first of a month,
and the first day of the second following month otherwise (the start
`last + DateOffset(months=1)` is rolled forward to the next month start
by `freq='MS'`). -/
theorem C2_forecast_horizon
    (fit : ModelConfig → List (Date × ℚ) → Except String FittedModel)
    (predict : FittedModel → Nat → Except String (List ℚ))
    (ts : List (Date × ℚ)) (h : Nat) (f : List (Date × ℚ)) (fm : FittedModel)
    (ld : Date) (lv : ℚ)
    (hsucc : generate_forecast fit predict ts h = (some f, some fm, none))
    (hlast : ts.getLast? = some (ld, lv))
    (h1 : 1 ≤ h) (h12 : h ≤ 12) :
    f.length = h ∧
    (∀ d ∈ f.map Prod.fst, d.day = 1) ∧
    List.Chain' (fun a b => b = monthStartAfter a) (f.map Prod.fst) ∧
    (f.map Prod.fst).head? =
      some (if ld.day = 1 then monthStartAfter ld
            else monthStartAfter (monthStartAfter ld)) := by
  rcases hfit : fit (selectModel ts.length) ts with e | fm'
  · simp [generate_forecast, hfit] at hsucc
  · rcases hpred : predict fm' h with e | ys
    · simp [generate_forecast, hfit, hpred] at hsucc
    · simp only [generate_forecast, hfit, hpred, hlast] at hsucc
      split at hsucc
      · next hlen =>
        rw [Prod.mk.injEq, Prod.mk.injEq, Option.some.injEq, Option.some.injEq] at hsucc
        have hf : f = (date_range_MS (dateOffsetMonth1 ld) h).zip ys := hsucc.1.symm
        have hidxlen : (date_range_MS (dateOffsetMonth1 ld) h).length = h :=
          consecMonthStarts_length _ h
        have hmap : f.map Prod.fst = date_range_MS (dateOffsetMonth1 ld) h := by
          rw [hf]
          exact List.map_fst_zip _ _ (by rw [hidxlen, hlen])
        refine ⟨?_, ?_, ?_, ?_⟩
        · rw [hf, List.length_zip, hidxlen, hlen]
          exact min_self h
        · rw [hmap]
          exact consecMonthStarts_day1 _ h (rollToMonthStart_day _)
        · rw [hmap]
          exact consecMonthStarts_chain _ h
        · rw [hmap]
          unfold date_range_MS
          rw [consecMonthStarts_head _ h h1, roll_dateOffsetMonth1]
      · simp at hsucc

/-- Witness for C2: a concrete successful forecast of horizon 2 from a
history ending on 2024-01-01. -/
theorem C2_forecast_horizon_witness :
    ([((⟨2024, 2, 1⟩ : Date), (0 : ℚ)), (⟨2024, 3, 1⟩, 0)].length = 2) ∧
    (∀ d ∈ [((⟨2024, 2, 1⟩ : Date), (0 : ℚ)), (⟨2024, 3, 1⟩, 0)].map Prod.fst, d.day = 1) ∧
    List.Chain' (fun a b => b = monthStartAfter a)
      ([((⟨2024, 2, 1⟩ : Date), (0 : ℚ)), (⟨2024, 3, 1⟩, 0)].map Prod.fst) ∧
    ([((⟨2024, 2, 1⟩ : Date), (0 : ℚ)), (⟨2024, 3, 1⟩, 0)].map Prod.fst).head? =
      some (if (⟨2024, 1, 1⟩ : Date).day = 1 then monthStartAfter ⟨2024, 1, 1⟩
            else monthStartAfter (monthStartAfter ⟨2024, 1, 1⟩)) :=
  C2_forecast_horizon okFit okPredict c2series 2
    [(⟨2024, 2, 1⟩, 0), (⟨2024, 3, 1⟩, 0)] ⟨[]⟩ ⟨2024, 1, 1⟩ 100
    (by rfl) (by rfl) (by decide) (by decide)

/-- Counterexample to C2 as stated: when the last historical timestamp
is 2024-01-15 (not a month start), the single forecast point is dated
2024-03-01, not 2024-02-01 — the first day of the month following the
last historical timestamp, as the claim requires, is skipped. -/
theorem C2_counterexample :
    generate_forecast okFit okPredict [(⟨2024, 1, 15⟩, (100 : ℚ))] 1
      = (some [(⟨2024, 3, 1⟩, 0)], some ⟨[]⟩, none) ∧
    (⟨2024, 3, 1⟩ : Date) ≠ ⟨2024, 2, 1⟩ :=
  ⟨rfl, by decide⟩

/-- Claim C5: for every pair of non-empty history and forecast series,
`calculate_metrics` returns sums for the totals, arithmetic means for
the averages, the forecast length as the period count, and the growth
rate `(last forecast - last history) / last history * 100` whenever the
last historical value is non-zero; when it is zero the unguarded
division leaves the growth rate undefined (non-finite). -/
theorem C5_metrics_formulas (hist fore : List ℚ) (lh lf : ℚ)
    (hh : hist.getLast? = some lh) (hf : fore.getLast? = some lf) :
    ∃ m, calculate_metrics hist fore = some m ∧
      m.historical_total = hist.sum ∧
      m.projected_total = fore.sum ∧
      m.historical_avg * (hist.length : ℚ) = hist.sum ∧
      m.forecast_avg * (fore.length : ℚ) = fore.sum ∧
      m.forecast_periods = fore.length ∧
      (lh ≠ 0 → m.growth_rate = some ((lf - lh) / lh * 100)) ∧
      (lh = 0 → m.growth_rate = none) := by
  have histNe : hist ≠ [] := by
    intro h0; rw [h0] at hh; simp at hh
  have foreNe : fore ≠ [] := by
    intro h0; rw [h0] at hf; simp at hf
  have histLen : (hist.length : ℚ) ≠ 0 := by
    exact_mod_cast List.length_pos.mpr histNe |>.ne'
  have foreLen : (fore.length : ℚ) ≠ 0 := by
    exact_mod_cast List.length_pos.mpr foreNe |>.ne'
  unfold calculate_metrics
  rw [hh, hf]
  refine ⟨_, rfl, rfl, rfl, ?_, ?_, rfl, ?_, ?_⟩
  · show seriesMean hist * (hist.length : ℚ) = hist.sum
    unfold seriesMean
    exact div_mul_cancel₀ _ histLen
  · show seriesMean fore * (fore.length : ℚ) = fore.sum
    unfold seriesMean
    exact div_mul_cancel₀ _ foreLen
  · intro h0
    show (if lh = 0 then none else some ((lf - lh) / lh * 100)) = _
    rw [if_neg h0]
  · intro h0
    show (if lh = 0 then none else some ((lf - lh) / lh * 100)) = none
    rw [if_pos h0]

/-- Witness for C5: history `[2, 4]`, forecast `[1, 5]`; the growth rate
is `(5 - 4) / 4 * 100 = 25`. -/
theorem C5_metrics_formulas_witness :
    ∃ m, calculate_metrics [2, 4] [1, 5] = some m ∧
      m.historical_total = ([2, 4] : List ℚ).sum ∧
      m.projected_total = ([1, 5] : List ℚ).sum ∧
      m.historical_avg * (([2, 4] : List ℚ).length : ℚ) = ([2, 4] : List ℚ).sum ∧
      m.forecast_avg * (([1, 5] : List ℚ).length : ℚ) = ([1, 5] : List ℚ).sum ∧
      m.forecast_periods = ([1, 5] : List ℚ).length ∧
      ((4 : ℚ) ≠ 0 → m.growth_rate = some (((5 : ℚ) - 4) / 4 * 100)) ∧
      ((4 : ℚ) = 0 → m.growth_rate = none) :=
  C5_metrics_formulas [2, 4] [1, 5] 4 5 rfl rfl

/-- Counterexample to C3 as stated: `c3rows` has 6 raw rows, so
`validate_columns` passes, yet one value is missing and the cleaned
series has only 5 points — the Series Builder hands a series of length
`< 6` to the Forecast Engine instead of failing. -/
theorem C3_counterexample :
    series_builder "Date" "Revenue" true c3rows = Except.ok c3clean ∧
    c3clean.length < 6 :=
  ⟨rfl, by decide⟩

/-- Claim C3 (amended): the Series Builder fails with a `DataError`
whenever the raw table has fewer than 6 rows — the length check at line
914 runs before cleaning; a series that only drops below 6 through
cleaning (missing dates or values removed by `dropna`) is not caught
and is handed on to the Forecast Engine. -/
theorem C3_raw_length_gate (date_col value_col : String) (b : Bool)
    (rows : List (DateCell × ValCell)) (hlen : rows.length < 6) :
    ∃ msg, series_builder date_col value_col b rows = Except.error msg := by
  have hval : (validate_columns date_col value_col b rows).1 = false := by
    unfold validate_columns
    split_ifs with h1 h2 <;> rfl
  rcases hv : validate_columns date_col value_col b rows with ⟨ok, msg⟩
  rw [hv] at hval
  simp only at hval
  subst hval
  unfold series_builder
  rw [hv]
  cases msg with
  | none => exact ⟨"", rfl⟩
  | some m => exact ⟨m, rfl⟩

/-- Witness for C3 (amended): a 2-row table is rejected. -/
theorem C3_raw_length_gate_witness :
    ∃ msg, series_builder "Date" "Revenue" true
      [(DateCell.valid ⟨2024, 1, 1⟩, ValCell.num 1),
       (DateCell.valid ⟨2024, 2, 1⟩, ValCell.num 2)] = Except.error msg :=
  C3_raw_length_gate "Date" "Revenue" true _ (by decide)

/-- Counterexample to C4 as stated: a table with a duplicated timestamp
passes through `prepare_time_series` unchanged — the produced series has
two equal adjacent timestamps, so its timestamps are not strictly
increasing. -/
theorem C4_counterexample :
    prepare_time_series c4rows =
      some [(⟨2024, 5, 1⟩, 2), (⟨2024, 5, 1⟩, 3)] ∧
    ¬ List.Pairwise (fun a b => dateKey a < dateKey b)
        ([((⟨2024, 5, 1⟩ : Date), (2 : ℚ)), (⟨2024, 5, 1⟩, 3)].map Prod.fst) :=
  ⟨rfl, by decide⟩

/-- Claim C4 (amended): every series produced by `prepare_time_series`
has non-decreasing (sorted ascending) timestamps; the spec invariant
fails to be strict only because duplicate timestamps are not
deduplicated and pass through as separate entries. -/
theorem C4_sorted_timestamps (rows : List (DateCell × ValCell))
    (ts : List (Date × ℚ)) (hts : prepare_time_series rows = some ts) :
    List.Pairwise (fun a b => dateKey a ≤ dateKey b) (ts.map Prod.fst) := by
  unfold prepare_time_series at hts
  split at hts
  · simp at hts
  · rw [Option.some.injEq] at hts
    subst hts
    rw [List.pairwise_map]
    exact @List.sorted_insertionSort (Date × ℚ)
      (fun a b => dateKey a.1 ≤ dateKey b.1) _ _ _ _

/-- Witness for C4 (amended): the duplicated-timestamp series is still
sorted in the non-strict sense. -/
theorem C4_sorted_timestamps_witness :
    List.Pairwise (fun a b => dateKey a ≤ dateKey b)
      (([((⟨2024, 5, 1⟩ : Date), (2 : ℚ)), (⟨2024, 5, 1⟩, 3)]).map Prod.fst) :=
  C4_sorted_timestamps c4rows [(⟨2024, 5, 1⟩, 2), (⟨2024, 5, 1⟩, 3)] rfl

theorem classify_foldl (df : List Column) (kw oth : List String) :
    df.foldl classifyStep (kw, oth) =
      (kw ++ (df.filter (fun c => columnQualifies c && isDateKeywordName c.name)).map Column.name,
       oth ++ (df.filter (fun c => columnQualifies c && !isDateKeywordName c.name)).map Column.name) := by
  induction df generalizing kw oth with
  | nil => simp
  | cons c t ih =>
    simp only [List.foldl_cons, List.filter_cons]
    by_cases hq : columnQualifies c
    · by_cases hk : isDateKeywordName c.name
      · simp only [classifyStep, hq, hk, if_true, Bool.and_self, Bool.not_true,
          Bool.and_false, if_false]
        rw [ih]
        simp [hq, hk]
      · simp only [classifyStep, hq, hk, if_true, if_false]
        rw [ih]
        simp [hq, hk]
    · simp only [classifyStep, hq, if_false]
      rw [ih]
      simp [hq]

theorem detect_date_column_eq (df : List Column) :
    detect_date_column df =
      ((df.filter (fun c => columnQualifies c && isDateKeywordName c.name)).map Column.name ++
       (df.filter (fun c => columnQualifies c && !isDateKeywordName c.name)).map Column.name).head? := by
  unfold detect_date_column
  rw [classify_foldl]
  simp

theorem find?_eq_head?_filter {α : Type} (p : α → Bool) (l : List α) :
    l.find? p = (l.filter p).head? := by
  induction l with
  | nil => rfl
  | cons a t ih =>
    by_cases hp : p a
    · rw [List.find?_cons_of_pos _ hp, List.filter_cons_of_pos hp]
      rfl
    · rw [List.find?_cons_of_neg _ hp, List.filter_cons_of_neg hp, ih]

theorem head?_mem_of_eq {α : Type} {l : List α} {a : α}
    (h : l.head? = some a) : a ∈ l := by
  cases l with
  | nil => simp at h
  | cons x t =>
    simp only [List.head?_cons, Option.some.injEq] at h
    rw [← h]
    exact List.mem_cons_self x t

/-- Claim C7: whenever a table has at least one qualifying column whose
name contains a date keyword, `detect_date_column` returns the first
such column (in column order), ahead of every qualifying column without
a keyword name. -/
theorem C7_keyword_priority (df : List Column) (c : Column)
    (hfind : df.find? (fun col => columnQualifies col && isDateKeywordName col.name)
      = some c) :
    detect_date_column df = some c.name := by
  rw [detect_date_column_eq]
  rw [find?_eq_head?_filter] at hfind
  rcases hfilter : df.filter (fun col => columnQualifies col && isDateKeywordName col.name)
    with _ | ⟨x, xs⟩
  · rw [hfilter] at hfind
    simp at hfind
  · rw [hfilter] at hfind
    simp only [List.head?_cons, Option.some.injEq] at hfind
    subst hfind
    rfl

/-- Witness for C7: the keyword-named datetime column `Month` is chosen
even though it comes after a non-keyword column. -/
theorem C7_keyword_priority_witness :
    detect_date_column c7table = some "Month" :=
  C7_keyword_priority c7table
    ⟨"Month", Dtype.datetime, [TableCell.dt ⟨2024, 1, 1⟩]⟩ (by rfl)

/-- Claim C10 (implicit): `detect_date_column` never returns a column of
numeric dtype: every numeric-dtype column fails the per-column
acceptance test — not only those whose values lie within the
calendar-year range [1900, 2100], since both arms of that range test
`continue`. -/
theorem C10_numeric_never_selected :
    (∀ c : Column, c.dtype = Dtype.numeric → columnQualifies c = false) ∧
    (∀ (df : List Column) (nm : String), detect_date_column df = some nm →
      ∃ c, c ∈ df ∧ c.name = nm ∧ c.dtype ≠ Dtype.numeric) := by
  have h1 : ∀ c : Column, c.dtype = Dtype.numeric → columnQualifies c = false := by
    intro c hc
    unfold columnQualifies
    rw [hc]
    exact ite_self false
  refine ⟨h1, ?_⟩
  intro df nm hdet
  rw [detect_date_column_eq] at hdet
  have hmem := head?_mem_of_eq hdet
  rcases List.mem_append.mp hmem with hin | hin <;>
  · rcases List.mem_map.mp hin with ⟨c, hcf, hcn⟩
    rcases List.mem_filter.mp hcf with ⟨hcdf, hcp⟩
    refine ⟨c, hcdf, hcn, ?_⟩
    intro hnum
    rw [h1 c hnum] at hcp
    simp at hcp

/-- Witness for C10: a numeric `Year` column with in-range values is
rejected; a table whose detected column is datetime-typed yields a
non-numeric column. -/
theorem C10_numeric_never_selected_witness :
    columnQualifies c10yearsColumn = false ∧
    (∃ c, c ∈ c10table ∧ c.name = "Month" ∧ c.dtype ≠ Dtype.numeric) :=
  ⟨C10_numeric_never_selected.1 c10yearsColumn rfl,
   C10_numeric_never_selected.2 c10table "Month" rfl⟩

/-- Counterexample to C6 as stated: `c6column` is an object column on
which exactly 80% of the entries parse as dates (4 of 5); the claim
("accepted iff at least 80% parse") says it is accepted, but the code's
comparison is strict (`valid_ratio > 0.8`), so it is rejected. -/
theorem C6_counterexample :
    ((parsedDateCount c6column : ℚ) / (c6column.cells.length : ℚ) ≥ 0.8) ∧
    columnQualifies c6column = false := by
  constructor
  · norm_num [parsedDateCount, c6column]
  · simp only [columnQualifies, c6column, parsedDateCount]
    norm_num

/-- Claim C6 (amended): in `detect_date_column`, a non-numeric,
non-datetime-typed column is accepted as a date candidate if and only
if strictly more than 80% of the full column's entries parse
successfully as dates (under the inferred format when one is found,
otherwise under generic auto-parsing). -/
theorem C6_parse_ratio_threshold (c : Column) (hobj : c.dtype = Dtype.object) :
    (columnQualifies c = true ↔ 5 * parsedDateCount c > 4 * c.cells.length) := by
  have hk : parsedDateCount c ≤ c.cells.length := List.countP_le_length _
  unfold columnQualifies
  rw [hobj]
  rw [decide_eq_true_eq]
  rcases Nat.eq_zero_or_pos c.cells.length with h0 | hpos
  · have hk0 : parsedDateCount c = 0 := by omega
    rw [h0, hk0]
    norm_num
  · rw [gt_iff_lt, show (0.8 : ℚ) = 4 / 5 by norm_num,
      div_lt_div_iff₀ (by norm_num) (by exact_mod_cast hpos)]
    constructor
    · intro hlt
      have : 4 * c.cells.length < parsedDateCount c * 5 := by exact_mod_cast hlt
      omega
    · intro hlt
      have : 4 * c.cells.length < parsedDateCount c * 5 := by omega
      exact_mod_cast this

/-- Witness for C6 (amended): the 80%-exactly column is on the
rejecting side of the strict threshold. -/
theorem C6_parse_ratio_threshold_witness :
    (columnQualifies c6column = true ↔
      5 * parsedDateCount c6column > 4 * c6column.cells.length) :=
  C6_parse_ratio_threshold c6column rfl

theorem csv_zip_part (l : List (Date × ℚ)) (tag : String) :
    ((l.map Prod.fst).map formatDMY).zip
        ((l.map Prod.snd).zip (List.replicate l.length tag))
      = l.map (fun p => (formatDMY p.1, p.2, tag)) := by
  induction l with
  | nil => rfl
  | cons a t ih =>
    simp only [List.map_cons, List.length_cons, List.replicate_succ,
      List.zip_cons_cons]
    rw [ih]

/-- Claim C8: for every non-empty history and forecast series, the
exported CSV has header `Date, <value column name>, Type` and consists
of the history rows in order (dates formatted `DD/MM/YYYY`, tagged
`Historical`) followed by the forecast rows in order (tagged
`Forecast`). -/
theorem C8_csv_layout (hist fore : List (Date × ℚ)) (nm : String)
    (hh : hist ≠ []) (hf : fore ≠ []) :
    create_download_csv hist fore nm =
      (["Date", nm, "Type"],
       hist.map (fun p => (formatDMY p.1, p.2, "Historical")) ++
       fore.map (fun p => (formatDMY p.1, p.2, "Forecast"))) := by
  unfold create_download_csv
  simp only [Prod.mk.injEq, true_and]
  rw [List.map_append,
    List.zip_append (by simp),
    List.zip_append (by simp [List.length_zip]),
    csv_zip_part, csv_zip_part]

/-- Witness for C8: a one-point history and one-point forecast. -/
theorem C8_csv_layout_witness :
    create_download_csv [(⟨2024, 1, 1⟩, 10)] [(⟨2024, 2, 1⟩, 20)] "Revenue" =
      (["Date", "Revenue", "Type"],
       [((⟨2024, 1, 1⟩ : Date), (10 : ℚ))].map
         (fun p => (formatDMY p.1, p.2, "Historical")) ++
       [((⟨2024, 2, 1⟩ : Date), (20 : ℚ))].map
         (fun p => (formatDMY p.1, p.2, "Forecast"))) :=
  C8_csv_layout [(⟨2024, 1, 1⟩, 10)] [(⟨2024, 2, 1⟩, 20)] "Revenue"
    (by simp) (by simp)
